import Mathlib

/-!
Verification model of the PONS revenue-intelligence core.

The definitions below are a shallow embedding of the JavaScript sources:

* `src/src/ai/leadScoring.js`          — `scoreLead`, `scoreAllLeads`
* `src/unnamed/part_004`               — `prioritizeDeal`, `prioritizeDeals`
* `src/unnamed/part_005`               — `detectLeaks`, `calculateRepKPIs`
* `src/src/ai/actionRecommendations.js`— `generateActions`
* `src/src/ai/leadScoring.js` (insight engine part) — `calculateHealthScore`
* `src/unnamed/part_010`               — `LEAK_TYPES`, `THRESHOLDS`

Modelling conventions, used consistently:

* Timestamps are integers (milliseconds since the epoch); `new Date(x).getTime()`
  on an ISO string is the corresponding integer.
* JavaScript numeric arithmetic is modelled exactly over `Int`.  Divisions that
  the source feeds to `Math.floor` are modelled with Lean's `Int` division `/`
  (Euclidean division, which floors for the positive constant divisors used
  here); `Math.round(a/b)` is modelled by `jsRoundDiv` below.  Comparisons of
  un-floored quotients (`x / dayMs > k`) are modelled by the equivalent
  cross-multiplied integer comparison (`x > k * dayMs`), noted at each site.
* Optional / possibly-missing JS object properties are modelled with `Option`;
  JS truthiness tests are modelled by the `jsTruthy…` helpers.
* `Number.prototype.toLocaleString()` inside human-readable description strings
  is abstracted to plain decimal rendering (`toString`); no code under
  verification ever parses those strings.
* `Array.prototype.sort` (stable since ES2019) with a consistent comparator
  `cmp` is modelled by the stable insertion sort `sortJS lt` where
  `lt a b ↔ cmp a b < 0`; a stable sort's output is uniquely determined by the
  comparator and the input order, so any correct stable sort is a faithful
  model.
-/

/-- Milliseconds in a day (`1000 * 60 * 60 * 24` in the source). -/
def dayMs : Int := 86400000

/-- Milliseconds in an hour (`1000 * 60 * 60` in the source). -/
def hourMs : Int := 3600000

/-- JavaScript `Math.round(num / den)` for a positive denominator, computed
exactly: `Math.round x = ⌊x + 1/2⌋`, and `⌊num/den + 1/2⌋ = ⌊(2*num + den) / (2*den)⌋`. -/
def jsRoundDiv (num den : Int) : Int := (2 * num + den) / (2 * den)

/-- Truthiness of an optional JS string (missing, `null` and `""` are falsy). -/
def jsTruthyS (o : Option String) : Bool :=
  match o with
  | none => false
  | some s => !(s == "")

/-- Truthiness of an optional JS number (missing, `null` and `0` are falsy). -/
def jsTruthyI (o : Option Int) : Bool :=
  match o with
  | none => false
  | some n => !(n == 0)

/-- Truthiness of an optional date-valued field.  In the source these fields
hold ISO date strings, so any present value is truthy. -/
def jsTruthyDate (o : Option Int) : Bool := o.isSome

/-- JS `s || fallback` for strings: the fallback is taken when `s` is empty. -/
def jsOr (s fallback : String) : String := if s == "" then fallback else s

/-- Character-wise lower-casing, modelling `String.prototype.toLowerCase` on the
ASCII data appearing in this code base. -/
def jsToLower (s : String) : String := String.mk (s.data.map Char.toLower)

/-- Does `cs` start with `pat`? (helper for `jsIncludes`). -/
def charsStartWith : List Char → List Char → Bool
  | _, [] => true
  | [], _ :: _ => false
  | c :: cs, p :: ps => c == p && charsStartWith cs ps

/-- Does `hay` contain `pat` as a contiguous run? (helper for `jsIncludes`). -/
def charsContain (hay pat : List Char) : Bool :=
  match hay with
  | [] => charsStartWith [] pat
  | _ :: t => charsStartWith hay pat || charsContain t pat

/-- JavaScript `s.includes(pat)`. -/
def jsIncludes (s pat : String) : Bool := charsContain s.data pat.data

/-- JS `parseInt` as used on the duration strings of this code base
(`"5 min"`, `"1 hour"`, …): the value of the leading run of digits. -/
def jsParseInt (s : String) : Int :=
  ((s.data.takeWhile Char.isDigit).foldl (fun n c => n * 10 + (c.toNat - 48)) 0 : Nat)

/-!
## Canonical data model (`src/unnamed/part_010` typedefs)

Only the fields read by the functions under verification are modelled; the
remaining typedef fields (`source`, `raw`, contact e-mail, …) are never touched
by the scoring/detection logic.
-/

/-- Canonical activity record. -/
structure Activity where
  id : String
  type : String
  contactId : String
  leadId : Option String := none
  dealId : Option String := none
  outcome : Option String := none
  performedBy : String
  createdAt : Int
deriving Repr, DecidableEq, Inhabited

/-- Canonical opportunity/deal record.  `createdAt`/`updatedAt` are required by
the schema and are modelled as always-present timestamps. -/
structure Opportunity where
  id : String
  name : String
  contactId : String
  value : Int
  status : String
  stage : String
  assignedTo : Option String := none
  createdAt : Int
  updatedAt : Int
  stageChangedAt : Option Int := none
  lostReason : Option String := none
deriving Repr, DecidableEq, Inhabited

/-- Canonical lead record.  The trailing optional fields are the qualification
signals probed by `scoreLead`'s fit computation (`company`, `title`, `budget`,
`timeline` and their aliases); the canonical typedef does not list them, and
they read as `undefined` (`none`) when absent. -/
structure Lead where
  id : String
  firstName : String
  lastName : String
  email : Option String := none
  phone : Option String := none
  status : String
  assignedTo : Option String := none
  leadSource : Option String := none
  createdAt : Int
  firstContactedAt : Option Int := none
  company : Option String := none
  companyName : Option String := none
  title : Option String := none
  jobTitle : Option String := none
  budget : Option Int := none
  estimatedValue : Option Int := none
  timeline : Option String := none
  expectedCloseDate : Option String := none
deriving Repr, DecidableEq, Inhabited

/-- Canonical rep record (only the fields used as grouping keys).  Named
`SalesRep` here because `Rep` already exists in Mathlib. -/
structure SalesRep where
  id : String
  name : String
  active : Bool
deriving Repr, DecidableEq, Inhabited

/-- Severity thresholds (`THRESHOLDS` in `src/unnamed/part_010`). -/
structure ThresholdTable where
  STALE_DAYS : Int
  RESPONSE_HOURS : Int
  HIGH_VALUE_DEAL : Int
  CRITICAL_VALUE_DEAL : Int
  MIN_WEEKLY_ACTIVITIES : Int
deriving Repr, DecidableEq

/-- The threshold constants of `src/unnamed/part_010`. -/
def THRESHOLDS : ThresholdTable :=
  { STALE_DAYS := 30
  , RESPONSE_HOURS := 24
  , HIGH_VALUE_DEAL := 10000
  , CRITICAL_VALUE_DEAL := 50000
  , MIN_WEEKLY_ACTIVITIES := 10 }

/-- `Object.values(LEAK_TYPES)` in declaration order (`src/unnamed/part_010`). -/
def LEAK_TYPE_VALUES : List String :=
  [ "STALE_OPPORTUNITY", "UNTOUCHED_LEAD", "SLOW_RESPONSE", "ABANDONED_DEAL"
  , "MISSING_FOLLOW_UP", "NO_ACTIVITY_REP", "UNASSIGNED_LEAD", "DEAD_PIPELINE"
  , "LOST_WITHOUT_REASON", "HIGH_VALUE_AT_RISK", "QUOTE_NO_FOLLOW_UP", "GHOST_CUSTOMER" ]

/-!
## Stable sort model

ECMAScript `Array.prototype.sort` is stable; for a consistent comparator it is
therefore extensionally the stable insertion sort below, with
`lt a b ↔ cmp a b < 0`.
-/

/-- Insert `x` into `l`, placing it before the first element `y` with
`lt x y` and after every earlier element (so equal-comparing elements keep
their original relative order when used through `sortJS`). -/
def insertOrd {α : Type} (lt : α → α → Bool) (x : α) : List α → List α
  | [] => [x]
  | y :: ys => if lt x y then x :: y :: ys else y :: insertOrd lt x ys

/-- Stable sort modelling JS `Array.prototype.sort` with comparator `cmp`,
where `lt a b ↔ cmp a b < 0`. -/
def sortJS {α : Type} (lt : α → α → Bool) (l : List α) : List α :=
  l.foldl (fun acc x => insertOrd lt x acc) []

/-!
## Lead Scoring Engine (`src/src/ai/leadScoring.js`)
-/

/-- Engagement scoring factors (`ENGAGEMENT_WEIGHTS`). -/
structure EngagementWeights where
  meeting_scheduled : Int
  meeting_completed : Int
  email_replied : Int
  call_connected : Int
  proposal_viewed : Int
  pricing_discussed : Int
  demo_completed : Int
  email_opened : Int
  link_clicked : Int
deriving Repr, DecidableEq

/-- The engagement weight table of the source. -/
def ENGAGEMENT_WEIGHTS : EngagementWeights :=
  { meeting_scheduled := 25
  , meeting_completed := 30
  , email_replied := 15
  , call_connected := 20
  , proposal_viewed := 20
  , pricing_discussed := 25
  , demo_completed := 30
  , email_opened := 5
  , link_clicked := 10 }

/-- `SOURCE_WEIGHTS[key] || SOURCE_WEIGHTS.unknown`: the source-quality weight
table, with the `unknown` weight (40) as the fallback for any other key. -/
def sourceWeightFor (key : String) : Int :=
  if key == "referral" then 95
  else if key == "demo_request" then 90
  else if key == "inbound_call" then 85
  else if key == "pricing_page" then 80
  else if key == "contact_form" then 75
  else if key == "webinar" then 70
  else if key == "content_download" then 60
  else if key == "website" then 50
  else if key == "trade_show" then 45
  else if key == "cold_outbound" then 30
  else if key == "purchased_list" then 20
  else 40

/-- `normalizeSource`'s `source.toLowerCase().replace(/[^a-z0-9]/g, '_')`. -/
def jsNormSourceString (s : String) : String :=
  String.mk ((jsToLower s).data.map
    (fun c => if ('a' ≤ c && c ≤ 'z') || ('0' ≤ c && c ≤ '9') then c else '_'))

/-- `normalizeSource(source)`: keyword-substring cascade mapping a free-text
lead source onto a key of the weight table. -/
def normalizeSource (source : Option String) : String :=
  if !jsTruthyS source then "unknown"
  else
    let s := jsNormSourceString (source.getD "")
    if jsIncludes s "referral" || jsIncludes s "refer" then "referral"
    else if jsIncludes s "demo" then "demo_request"
    else if jsIncludes s "inbound" || jsIncludes s "phone" then "inbound_call"
    else if jsIncludes s "pricing" then "pricing_page"
    else if jsIncludes s "contact" || jsIncludes s "form" then "contact_form"
    else if jsIncludes s "webinar" || jsIncludes s "event" then "webinar"
    else if jsIncludes s "download" || jsIncludes s "content" || jsIncludes s "ebook" then "content_download"
    else if jsIncludes s "website" || jsIncludes s "web" || jsIncludes s "organic" then "website"
    else if jsIncludes s "trade" || jsIncludes s "show" || jsIncludes s "conference" then "trade_show"
    else if jsIncludes s "cold" || jsIncludes s "outbound" then "cold_outbound"
    else if jsIncludes s "list" || jsIncludes s "purchased" then "purchased_list"
    else "unknown"

/-- Section 1 of `scoreLead`: source-quality points,
`Math.round((sourceWeight / 100) * 25)`. -/
def sourcePointsOf (lead : Lead) : Int :=
  jsRoundDiv (sourceWeightFor (normalizeSource lead.leadSource) * 25) 100

/-- JS `Set` insertion (insertion-ordered, duplicates ignored), as produced by
`Array.from(set)`. -/
def jsSetAdd (l : List String) (s : String) : List String :=
  if l.contains s then l else l ++ [s]

/-- One step of `scoreLead`'s engagement loop: accumulated points paired with
the insertion-ordered set of recognised activity kinds. -/
def engagementStep (acc : Int × List String) (a : Activity) : Int × List String :=
  let t := jsToLower a.type
  let o := jsToLower (a.outcome.getD "")
  if t == "meeting" && o == "completed" then
    (acc.1 + ENGAGEMENT_WEIGHTS.meeting_completed, jsSetAdd acc.2 "meeting_completed")
  else if t == "meeting" then
    (acc.1 + ENGAGEMENT_WEIGHTS.meeting_scheduled, jsSetAdd acc.2 "meeting_scheduled")
  else if t == "call" && o == "connected" then
    (acc.1 + ENGAGEMENT_WEIGHTS.call_connected, jsSetAdd acc.2 "call_connected")
  else if t == "email" && o == "replied" then
    (acc.1 + ENGAGEMENT_WEIGHTS.email_replied, jsSetAdd acc.2 "email_replied")
  else if t == "demo" then
    (acc.1 + ENGAGEMENT_WEIGHTS.demo_completed, jsSetAdd acc.2 "demo_completed")
  else if t == "email" then
    (acc.1 + ENGAGEMENT_WEIGHTS.email_opened, acc.2)
  else acc

/-- Section 2 of `scoreLead`: the engagement loop over all related activities. -/
def engagementFold (activities : List Activity) : Int × List String :=
  activities.foldl engagementStep (0, [])

/-- `activities.reduce((latest, a) => aDate > latest ? aDate : latest, new Date(0))`:
the latest activity timestamp, starting from the epoch. -/
def latestActivityTime0 (activities : List Activity) : Int :=
  activities.foldl (fun m a => if a.createdAt > m then a.createdAt else m) 0

/-- Days since the last touch used by `scoreLead`'s recency section:
`Math.floor` of the day quotient, falling back to the lead's creation date when
it has no activities. -/
def daysSinceLastActivityOf (lead : Lead) (activities : List Activity) (now : Int) : Int :=
  if activities.length > 0 then (now - latestActivityTime0 activities) / dayMs
  else (now - lead.createdAt) / dayMs

/-- Section 3 of `scoreLead`: the recency step function. -/
def recencyPointsOf (lead : Lead) (activities : List Activity) (now : Int) : Int :=
  let d := daysSinceLastActivityOf lead activities now
  if d ≤ 1 then 25
  else if d ≤ 3 then 22
  else if d ≤ 7 then 18
  else if d ≤ 14 then 14
  else if d ≤ 30 then 10
  else if d ≤ 60 then 5
  else 2

/-- Section 4 of `scoreLead`: data-completeness / qualification fit points,
before the cap. -/
def fitPointsOf (lead : Lead) : Int :=
  (if jsTruthyS lead.email && jsIncludes (lead.email.getD "") "@" then 4 else 0)
  + (if jsTruthyS lead.phone then 3 else 0)
  + (if jsTruthyS lead.company || jsTruthyS lead.companyName then 4 else 0)
  + (if jsTruthyS lead.title || jsTruthyS lead.jobTitle then 3 else 0)
  + (if jsTruthyI lead.budget || jsTruthyI lead.estimatedValue then 3 else 0)
  + (if jsTruthyS lead.timeline || jsTruthyS lead.expectedCloseDate then 3 else 0)

/-- Breakdown map of `scoreLead`'s sub-scores. -/
structure ScoreBreakdown where
  source : Int
  engagement : Int
  recency : Int
  fit : Int
  total : Int
deriving Repr, DecidableEq, Inhabited

/-- The `signals` object of a lead score record. -/
structure LeadSignals where
  source : String
  activityTypes : List String
  daysSinceLastActivity : Int
  hasEmail : Bool
  hasPhone : Bool
deriving Repr, DecidableEq, Inhabited

/-- A lead score record: the object literal returned by `scoreLead`.  Its
properties are exactly `leadId, score, grade, breakdown, signals, priority`
(see `scoreLeadRecordKeys`); in particular it has no `tier` and no `rank`
property. -/
structure ScoreRecord where
  leadId : String
  score : Int
  grade : String
  breakdown : ScoreBreakdown
  signals : LeadSignals
  priority : String
deriving Repr, DecidableEq, Inhabited

/-- The property names of the object literal returned by `scoreLead`, in
source order.  Recorded explicitly because two claims are about which fields
the record does (not) carry. -/
def scoreLeadRecordKeys : List String :=
  ["leadId", "score", "grade", "breakdown", "signals", "priority"]

/-- `scoreLead(lead, activities, {now})`: weighted 0-100 lead quality score.
The source reads `options.now`; the caller-supplied clock is modelled as an
explicit `now` parameter. -/
def scoreLead (lead : Lead) (activities : List Activity) (now : Int) : ScoreRecord :=
  let sourceScore := sourcePointsOf lead
  let eng := engagementFold activities
  let engagementScore := min 30 eng.1
  let recencyScore := recencyPointsOf lead activities now
  let fitScore := min 20 (fitPointsOf lead)
  let total := sourceScore + engagementScore + recencyScore + fitScore
  let grade :=
    if total ≥ 80 then "A"
    else if total ≥ 65 then "B"
    else if total ≥ 50 then "C"
    else "D"
  { leadId := lead.id
  , score := total
  , grade := grade
  , breakdown :=
      { source := sourceScore, engagement := engagementScore
      , recency := recencyScore, fit := fitScore, total := total }
  , signals :=
      { source := normalizeSource lead.leadSource
      , activityTypes := eng.2
      , daysSinceLastActivity := daysSinceLastActivityOf lead activities now
      , hasEmail := jsTruthyS lead.email
      , hasPhone := jsTruthyS lead.phone }
  , priority := if total ≥ 70 then "HIGH" else if total ≥ 50 then "MEDIUM" else "LOW" }

/-- Grade distribution of `scoreAllLeads`'s summary. -/
structure GradeDistribution where
  A : Nat
  B : Nat
  C : Nat
  D : Nat
deriving Repr, DecidableEq

/-- Summary of `scoreAllLeads`. -/
structure LeadScoreSummary where
  total : Nat
  highPriority : Nat
  mediumPriority : Nat
  lowPriority : Nat
  avgScore : Int
  gradeDistribution : GradeDistribution
deriving Repr, DecidableEq

/-- Result shape of `scoreAllLeads`. -/
structure LeadScoreResult where
  leads : List ScoreRecord
  summary : LeadScoreSummary
deriving Repr, DecidableEq

/-- The grouping key of `scoreAllLeads`'s activity lookup:
`activity.contactId || activity.leadId`. -/
def leadActKey (a : Activity) : Option String :=
  if !(a.contactId == "") then some a.contactId else a.leadId

/-- Activities grouped under a given lead id (`activityByLead.get(lead.id) || []`);
grouping by key preserves the original order within each group, so it equals a
filter. -/
def leadActs (activities : List Activity) (leadId : String) : List Activity :=
  activities.filter (fun a => leadActKey a == some leadId)

/-- Comparator of `scoreAllLeads`'s sort: `(a, b) => b.score - a.score`, i.e.
`a` strictly precedes `b` when `a.score > b.score`. -/
def scoreRecLt (a b : ScoreRecord) : Bool := decide (b.score < a.score)

/-- `scoreAllLeads(leads, activities, {now})`: scores each lead independently
and returns them sorted by score, descending, plus summary statistics. -/
def scoreAllLeads (leads : List Lead) (activities : List Activity) (now : Int) :
    LeadScoreResult :=
  let scored := leads.map (fun l => scoreLead l (leadActs activities l.id) now)
  let sorted := sortJS scoreRecLt scored
  { leads := sorted
  , summary :=
      { total := sorted.length
      , highPriority := (sorted.filter (fun s => s.priority == "HIGH")).length
      , mediumPriority := (sorted.filter (fun s => s.priority == "MEDIUM")).length
      , lowPriority := (sorted.filter (fun s => s.priority == "LOW")).length
      , avgScore :=
          if sorted.length > 0 then
            jsRoundDiv (sorted.foldl (fun acc s => acc + s.score) 0) (sorted.length : Int)
          else 0
      , gradeDistribution :=
          { A := (sorted.filter (fun s => s.grade == "A")).length
          , B := (sorted.filter (fun s => s.grade == "B")).length
          , C := (sorted.filter (fun s => s.grade == "C")).length
          , D := (sorted.filter (fun s => s.grade == "D")).length } } }

/-!
## Deal Prioritization Engine (`src/unnamed/part_004`)
-/

/-- The weight table `WEIGHTS` of the deal prioritization engine. -/
structure DealWeights where
  VALUE : Int
  PROBABILITY : Int
  VELOCITY : Int
  DECAY : Int
  EFFORT : Int
deriving Repr, DecidableEq

/-- The deal prioritization weights (they sum to 100). -/
def WEIGHTS : DealWeights :=
  { VALUE := 30, PROBABILITY := 25, VELOCITY := 20, DECAY := 15, EFFORT := 10 }

/-- The five sub-scores of a prioritized deal. -/
structure DealScores where
  value : Int
  probability : Int
  velocity : Int
  decay : Int
  effort : Int
deriving Repr, DecidableEq, Inhabited

/-- The recommendation object returned by `getRecommendation`. -/
structure DealRecommendation where
  action : String
  message : String
  tactic : String
deriving Repr, DecidableEq, Inhabited

/-- A prioritized-deal record.  `rank` is `0` until `prioritizeDeals` assigns
ranks 1..N after sorting (the source sets the property only then); `scoredAt`
holds the `now` timestamp the source renders with `toISOString()`. -/
structure PriorityRecord where
  dealId : String
  dealName : String
  value : Int
  priorityScore : Int
  expectedValue : Int
  scores : DealScores
  urgency : String
  recommendation : DealRecommendation
  rank : Int := 0
  scoredAt : Int
deriving Repr, DecidableEq, Inhabited

/-- `scoreValue(value)`: step function on absolute deal size.  The source's
`!value || value <= 0` guard is the single test `value ≤ 0` over integers. -/
def scoreValue (value : Int) : Int :=
  if value ≤ 0 then 10
  else if value ≥ 500000 then 100
  else if value ≥ 100000 then 85
  else if value ≥ 50000 then 70
  else if value ≥ 25000 then 60
  else if value ≥ 10000 then 50
  else if value ≥ 5000 then 40
  else if value ≥ 1000 then 30
  else 20

/-- Stage-based base probability of `scoreProbability`: the first matching key
of the `stageScores` table in insertion order, default 50. -/
def stageBaseScore (stage : String) : Int :=
  let s := jsToLower stage
  if jsIncludes s "closed" then 100
  else if jsIncludes s "contract" then 90
  else if jsIncludes s "negotiation" then 80
  else if jsIncludes s "proposal" then 70
  else if jsIncludes s "demo" then 60
  else if jsIncludes s "qualified" then 50
  else if jsIncludes s "discovery" then 40
  else if jsIncludes s "lead" then 25
  else if jsIncludes s "new" then 20
  else 50

/-- `scoreProbability(deal, activities)`: stage base plus engagement and
multi-threading boosts, capped at 100. -/
def scoreProbability (deal : Opportunity) (activities : List Activity) : Int :=
  let base := stageBaseScore deal.stage
  let withEngagement :=
    if activities.length ≥ 5 then base + 10
    else if activities.length ≥ 3 then base + 5
    else base
  let uniqueContacts := (activities.map (fun a => a.contactId)).dedup.length
  let withThreads :=
    if uniqueContacts ≥ 3 then withEngagement + 10
    else if uniqueContacts ≥ 2 then withEngagement + 5
    else withEngagement
  min withThreads 100

/-- Comparator of the activity sorts in `scoreVelocity` and the leak
detector's follow-up rule:
`(a, b) => new Date(b.createdAt) - new Date(a.createdAt)` (newest first). -/
def actDescLt (a b : Activity) : Bool := decide (b.createdAt < a.createdAt)

/-- `scoreVelocity(deal, activities, now)`: recency of last touch, trailing
14-day activity frequency and stage progression, capped at 100.
Un-floored day-quotient comparisons (`Δ/dayMs ≤ k`) are modelled as
`Δ ≤ k*dayMs`. -/
def scoreVelocity (deal : Opportunity) (activities : List Activity) (now : Int) : Int :=
  if activities.length == 0 then 20
  else
    let sorted := sortJS actDescLt activities
    let lastActivityTime := ((sorted.head?).map (fun a => a.createdAt)).getD 0
    let delta := now - lastActivityTime
    let recencyScore :=
      if delta ≤ 1 * dayMs then 50
      else if delta ≤ 3 * dayMs then 40
      else if delta ≤ 7 * dayMs then 25
      else if delta ≤ 14 * dayMs then 10
      else 0
    let recentCount := (activities.filter (fun a => now - a.createdAt ≤ 14 * dayMs)).length
    let frequencyScore :=
      if recentCount ≥ 5 then 30
      else if recentCount ≥ 3 then 20
      else if recentCount ≥ 1 then 10
      else 0
    let progressScore :=
      match deal.stageChangedAt with
      | some t => if now - t ≤ 14 * dayMs then 20 else 0
      | none => 0
    min (recencyScore + frequencyScore + progressScore) 100

/-- `Math.max(...activities.map(a => new Date(a.createdAt).getTime()))` for a
non-empty activity list (callers guard emptiness exactly as the source does). -/
def maxActivityTime (activities : List Activity) : Int :=
  match activities with
  | [] => 0
  | a :: rest => rest.foldl (fun m x => max m x.createdAt) a.createdAt

/-- `scoreDecay(deal, activities, now)`: risk points for silence, high value
at risk and stage stagnation, capped at 100.  The source's
`daysSinceActivity = 999` sentinel for deals without activities is modelled in
milliseconds (`999 * dayMs`), preserving every comparison it feeds. -/
def scoreDecay (deal : Opportunity) (activities : List Activity) (now : Int) : Int :=
  let deltaAct :=
    if activities.length > 0 then now - maxActivityTime activities
    else 999 * dayMs
  let silenceRisk :=
    if deltaAct > 30 * dayMs then 50
    else if deltaAct > 14 * dayMs then 35
    else if deltaAct > 7 * dayMs then 20
    else if deltaAct > 3 * dayMs then 10
    else 0
  let valueRisk := if deal.value ≥ 50000 && deltaAct > 7 * dayMs then 25 else 0
  let deltaStage := now - deal.updatedAt
  let stageRisk :=
    if deltaStage > 21 * dayMs then 25
    else if deltaStage > 14 * dayMs then 15
    else 0
  min (silenceRisk + valueRisk + stageRisk) 100

/-- `scoreEffort(deal, activities)`: inverse remaining-effort score, capped at
100. -/
def scoreEffort (deal : Opportunity) (activities : List Activity) : Int :=
  let s := jsToLower deal.stage
  let investScore :=
    if activities.length ≥ 10 then 25
    else if activities.length ≥ 5 then 15
    else 0
  let stageScore :=
    if jsIncludes s "contract" || jsIncludes s "negotiation" then 25
    else if jsIncludes s "proposal" then 15
    else if jsIncludes s "demo" then 5
    else 0
  min (50 + investScore + stageScore) 100

/-- `getUrgency(decayScore, velocityScore)`. -/
def getUrgency (decayScore velocityScore : Int) : String :=
  if decayScore ≥ 70 then "IMMEDIATE"
  else if decayScore ≥ 50 then "TODAY"
  else if decayScore ≥ 30 || velocityScore ≤ 20 then "THIS_WEEK"
  else "SCHEDULED"

/-- `getRecommendation(scores, deal)`: the fixed-priority decision table
(rescue, then accelerate, then close, then advance — first match wins). -/
def getRecommendation (scores : DealScores) : DealRecommendation :=
  if scores.decay ≥ 70 then
    { action := "RESCUE"
    , message := "Deal going cold. Immediate outreach required."
    , tactic := "Call + email same day. Offer meeting or value-add." }
  else if scores.velocity ≤ 30 then
    { action := "ACCELERATE"
    , message := "Deal stalled. Create urgency."
    , tactic := "Propose deadline, limited offer, or executive meeting." }
  else if scores.probability ≥ 70 then
    { action := "CLOSE"
    , message := "Deal ready to close. Ask for the business."
    , tactic := "Send contract, schedule signing call, remove final objections." }
  else
    { action := "ADVANCE"
    , message := "Move deal forward."
    , tactic := "Schedule next milestone: demo, proposal review, or stakeholder meeting." }

/-- `prioritizeDeal(deal, activities, now)`: the five sub-scores, the weighted
total `Math.round(Σ (sᵢ/100)·Wᵢ) = Math.round((Σ sᵢ·Wᵢ)/100)`, the expected
value `Math.round(value · probability/100)`, urgency and recommendation. -/
def prioritizeDeal (deal : Opportunity) (activities : List Activity) (now : Int) :
    PriorityRecord :=
  let scores : DealScores :=
    { value := scoreValue deal.value
    , probability := scoreProbability deal activities
    , velocity := scoreVelocity deal activities now
    , decay := scoreDecay deal activities now
    , effort := scoreEffort deal activities }
  let priorityScore :=
    jsRoundDiv
      (scores.value * WEIGHTS.VALUE + scores.probability * WEIGHTS.PROBABILITY
        + scores.velocity * WEIGHTS.VELOCITY + scores.decay * WEIGHTS.DECAY
        + scores.effort * WEIGHTS.EFFORT) 100
  { dealId := deal.id
  , dealName := deal.name
  , value := deal.value
  , priorityScore := priorityScore
  , expectedValue := jsRoundDiv (deal.value * scores.probability) 100
  , scores := scores
  , urgency := getUrgency scores.decay scores.velocity
  , recommendation := getRecommendation scores
  , rank := 0
  , scoredAt := now }

/-- The contact-to-deal map of `groupActivitiesByDeal`: `Map.set` in iteration
order means the last deal with a given (truthy) `contactId` wins. -/
def contactToDealId (deals : List Opportunity) (cid : String) : Option String :=
  ((deals.filter (fun d => !(d.contactId == "") && d.contactId == cid)).getLast?).map
    (fun d => d.id)

/-- The deal key an activity is grouped under: its own (truthy) `dealId`, else
the contact-to-deal mapping; activities resolving to no truthy key are not
grouped at all. -/
def resolvedDealId (deals : List Opportunity) (a : Activity) : Option String :=
  let d0 : Option String :=
    if jsTruthyS a.dealId then a.dealId
    else if !(a.contactId == "") then contactToDealId deals a.contactId
    else a.dealId
  if jsTruthyS d0 then d0 else none

/-- Activities grouped under key `key` by `groupActivitiesByDeal` (grouping
preserves order, so it equals a filter). -/
def dealActs (deals : List Opportunity) (activities : List Activity) (key : String) :
    List Activity :=
  activities.filter (fun a => resolvedDealId deals a == some key)

/-- `activityByDeal.get(deal.id) || activityByDeal.get(deal.contactId) || []`:
a stored group is never empty, so a missing map key is exactly an empty
filter result. -/
def activitiesForDeal (deals : List Opportunity) (activities : List Activity)
    (deal : Opportunity) : List Activity :=
  let byId := dealActs deals activities deal.id
  if byId.length > 0 then byId else dealActs deals activities deal.contactId

/-- Comparator of `prioritizeDeals`'s sort:
`(a, b) => b.priorityScore - a.priorityScore`. -/
def priorityLt (a b : PriorityRecord) : Bool := decide (b.priorityScore < a.priorityScore)

/-- `prioritized.forEach((p, i) => p.rank = i + 1)`, as a pure rank-stamping
pass starting from `i`. -/
def addRanks : Int → List PriorityRecord → List PriorityRecord
  | _, [] => []
  | i, p :: ps => { p with rank := i } :: addRanks (i + 1) ps

/-- An entry of `prioritizeDeals`'s `focusList`. -/
structure FocusItem where
  rank : Int
  name : String
  value : Int
  urgency : String
  action : String
deriving Repr, DecidableEq

/-- Summary of `prioritizeDeals`. -/
structure DealSummary where
  totalDeals : Nat
  totalPipelineValue : Int
  weightedPipelineValue : Int
  avgPriorityScore : Int
  urgentCount : Nat
  topDeal : Option PriorityRecord
deriving Repr, DecidableEq

/-- Result shape of `prioritizeDeals`. -/
structure DealPriorityResult where
  deals : List PriorityRecord
  summary : DealSummary
  focusList : List FocusItem
  scoredAt : Int
deriving Repr, DecidableEq

/-- `prioritizeDeals(deals, activities, now)`: filters to open deals, scores
each with its grouped activities, sorts by priority score descending, stamps
ranks 1..N and computes the portfolio summary.  `Math.round(sum/len) || 0` on
an empty list is the guarded-zero branch. -/
def prioritizeDeals (deals : List Opportunity) (activities : List Activity) (now : Int) :
    DealPriorityResult :=
  let openDeals := deals.filter (fun d => d.status == "open")
  let prioritized :=
    openDeals.map (fun d => prioritizeDeal d (activitiesForDeal deals activities d) now)
  let ranked := addRanks 1 (sortJS priorityLt prioritized)
  let urgentDeals :=
    ranked.filter (fun p => p.urgency == "IMMEDIATE" || p.urgency == "TODAY")
  { deals := ranked
  , summary :=
      { totalDeals := ranked.length
      , totalPipelineValue := ranked.foldl (fun acc p => acc + p.value) 0
      , weightedPipelineValue := ranked.foldl (fun acc p => acc + p.expectedValue) 0
      , avgPriorityScore :=
          if ranked.length > 0 then
            jsRoundDiv (ranked.foldl (fun acc p => acc + p.priorityScore) 0) (ranked.length : Int)
          else 0
      , urgentCount := urgentDeals.length
      , topDeal := ranked.head? }
  , focusList :=
      (ranked.take 5).map (fun p =>
        { rank := p.rank, name := p.dealName, value := p.value
        , urgency := p.urgency, action := p.recommendation.action })
  , scoredAt := now }

/-!
## Leak Detector (`src/unnamed/part_005`)

`detectLeaks` is modelled on its AI-disabled path (`includeAI = false`): the
`aiAnalyze` call is skipped and `aiInsights` stays `null`.  The `contacts`
input array is only ever forwarded to that disabled AI call, so it is not part
of the model.  The `metadata` property of emitted leaks (a heterogeneous
diagnostic map never read by any code under verification) is not modelled.
-/

/-- A revenue-leak record (the `Leak` typedef of `src/unnamed/part_010`,
without the opaque `metadata` map). -/
structure Leak where
  id : String
  type : String
  severity : String
  title : String
  description : String
  recommendedAction : String
  impactedCount : Nat
  estimatedRevenue : Int
  relatedIds : List String
deriving Repr, DecidableEq, Inhabited

/-- Activities grouped under a contact id (`activityByContact.get(cid) || []`;
grouping preserves order, so it equals a filter). -/
def contactActs (activities : List Activity) (cid : String) : List Activity :=
  activities.filter (fun a => a.contactId == cid)

/-- Activities grouped under the rep who performed them
(`activityByRep.get(rid) || []`). -/
def repActs (activities : List Activity) (rid : String) : List Activity :=
  activities.filter (fun a => a.performedBy == rid)

/-- Leak rule 1 (stale opportunities), per open opportunity: days are
`Math.floor((now - last)/dayMs)`. -/
def staleOppLeak (activities : List Activity) (now : Int) (opp : Opportunity) :
    Option Leak :=
  let cacts := contactActs activities opp.contactId
  let lastActivityDate :=
    if cacts.length > 0 then maxActivityTime cacts else opp.createdAt
  let daysSinceActivity := (now - lastActivityDate) / dayMs
  if daysSinceActivity > THRESHOLDS.STALE_DAYS then
    some
      { id := "stale_opp_" ++ opp.id
      , type := "STALE_OPPORTUNITY"
      , severity :=
          if opp.value ≥ THRESHOLDS.CRITICAL_VALUE_DEAL then "CRITICAL"
          else if opp.value ≥ THRESHOLDS.HIGH_VALUE_DEAL then "HIGH"
          else "MEDIUM"
      , title := "Stale Opportunity"
      , description :=
          "\"" ++ opp.name ++ "\" has had no activity for "
            ++ toString daysSinceActivity ++ " days. Value: $" ++ toString opp.value
      , recommendedAction := "Schedule immediate follow-up call or send re-engagement email"
      , impactedCount := 1
      , estimatedRevenue := opp.value
      , relatedIds := [opp.id] }
  else none

/-- Leak rule 2 (untouched leads), per lead with `status == 'new'` and no
first contact. -/
def untouchedLeadLeak (now : Int) (lead : Lead) : Option Leak :=
  let daysSinceCreated := (now - lead.createdAt) / dayMs
  if daysSinceCreated > 1 then
    some
      { id := "untouched_lead_" ++ lead.id
      , type := "UNTOUCHED_LEAD"
      , severity := if daysSinceCreated > 7 then "HIGH" else "MEDIUM"
      , title := "Untouched Lead"
      , description :=
          "Lead \"" ++ lead.firstName ++ " " ++ lead.lastName ++ "\" from "
            ++ jsOr (lead.leadSource.getD "") "unknown source"
            ++ " has not been contacted in " ++ toString daysSinceCreated ++ " days"
      , recommendedAction :=
          "Make first contact within 5 minutes of lead creation for 21x better conversion"
      , impactedCount := 1
      , estimatedRevenue := 5000
      , relatedIds := [lead.id] }
  else none

/-- Leak rule 3 (slow response), per lead with a first-contact timestamp:
`responseHours > k` is the cross-multiplied `responseMs > k * hourMs`, and the
description's `Math.floor(responseHours)` is `responseMs / hourMs`. -/
def slowResponseLeak (lead : Lead) : Option Leak :=
  match lead.firstContactedAt with
  | none => none
  | some fca =>
    let responseMs := fca - lead.createdAt
    if responseMs > THRESHOLDS.RESPONSE_HOURS * hourMs then
      some
        { id := "slow_response_" ++ lead.id
        , type := "SLOW_RESPONSE"
        , severity := if responseMs > 72 * hourMs then "HIGH" else "MEDIUM"
        , title := "Slow Response Time"
        , description :=
            "Lead \"" ++ lead.firstName ++ " " ++ lead.lastName ++ "\" took "
              ++ toString (responseMs / hourMs) ++ " hours to get first contact"
        , recommendedAction :=
            "Set up speed-to-lead automation. Response within 5 min = 100x more likely to connect"
        , impactedCount := 1
        , estimatedRevenue := 0
        , relatedIds := [lead.id] }
    else none

/-- Leak rule 4 (abandoned deals, one aggregate leak): lost/abandoned deals
updated in the trailing 90 days (`daysAgo ≤ 90` is `Δ ≤ 90 * dayMs`); the
recoverable estimate `Math.floor(totalValue * 0.1)` is `totalValue / 10` in
exact arithmetic. -/
def abandonedDealsLeak (opportunities : List Opportunity) (now : Int) : Option Leak :=
  let abandonedOpps :=
    opportunities.filter (fun o => o.status == "abandoned" || o.status == "lost")
  let recentAbandoned :=
    abandonedOpps.filter (fun o => now - o.updatedAt ≤ 90 * dayMs)
  if recentAbandoned.length > 0 then
    let totalValue := recentAbandoned.foldl (fun acc o => acc + o.value) 0
    some
      { id := "abandoned_deals_batch"
      , type := "ABANDONED_DEAL"
      , severity := if totalValue > 100000 then "HIGH" else "MEDIUM"
      , title := "Abandoned Deals (Last 90 Days)"
      , description :=
          toString recentAbandoned.length ++ " deals worth $" ++ toString totalValue
            ++ " were abandoned recently"
      , recommendedAction :=
          "Review lost reasons. Implement win-back campaign for deals lost to \"no decision\""
      , impactedCount := recentAbandoned.length
      , estimatedRevenue := totalValue / 10
      , relatedIds := recentAbandoned.map (fun o => o.id) }
  else none

/-- Leak rule 5 (missing follow-ups), per open opportunity: the latest
completed-or-meeting activity (the source sorts newest-first and takes the
head). -/
def missingFollowUpLeak (activities : List Activity) (now : Int) (opp : Opportunity) :
    Option Leak :=
  let cacts := contactActs activities opp.contactId
  let candidates :=
    cacts.filter (fun a => a.outcome == some "completed" || a.type == "meeting")
  match (sortJS actDescLt candidates).head? with
  | none => none
  | some lastActivity =>
    let daysSince := (now - lastActivity.createdAt) / dayMs
    if daysSince ≥ 7 && daysSince < THRESHOLDS.STALE_DAYS then
      some
        { id := "missing_followup_" ++ opp.id
        , type := "MISSING_FOLLOW_UP"
        , severity := "MEDIUM"
        , title := "Missing Follow-Up"
        , description :=
            "\"" ++ opp.name ++ "\" had a " ++ lastActivity.type ++ " "
              ++ toString daysSince ++ " days ago but no follow-up scheduled"
        , recommendedAction := "Schedule next touch within 48 hours of every interaction"
        , impactedCount := 1
        , estimatedRevenue := opp.value
        , relatedIds := [opp.id] }
    else none

/-- Leak rule 6 (inactive reps), per active rep with fewer than
`MIN_WEEKLY_ACTIVITIES * 4` activities in the trailing 30 days and a non-empty
open pipeline. -/
def inactiveRepLeak (openOpps : List Opportunity) (activities : List Activity)
    (now : Int) (rep : SalesRep) : Option Leak :=
  if !rep.active then none
  else
    let recentActivities :=
      (repActs activities rep.id).filter (fun a => a.createdAt > now - 30 * dayMs)
    if (recentActivities.length : Int) < THRESHOLDS.MIN_WEEKLY_ACTIVITIES * 4 then
      let assignedOpps := openOpps.filter (fun o => o.assignedTo == some rep.id)
      let atRisk := assignedOpps.foldl (fun acc o => acc + o.value) 0
      if assignedOpps.length > 0 then
        some
          { id := "inactive_rep_" ++ rep.id
          , type := "NO_ACTIVITY_REP"
          , severity := if atRisk > 50000 then "HIGH" else "MEDIUM"
          , title := "Low Activity Rep"
          , description :=
              rep.name ++ " has only " ++ toString recentActivities.length
                ++ " activities in 30 days with $" ++ toString atRisk
                ++ " in open pipeline"
          , recommendedAction :=
              "Schedule 1:1 to identify blockers. Consider reassigning high-value deals"
          , impactedCount := assignedOpps.length
          , estimatedRevenue := atRisk
          , relatedIds := rep.id :: assignedOpps.map (fun o => o.id) }
      else none
    else none

/-- Leak rule 7 (unassigned leads, one aggregate leak). -/
def unassignedLeadsLeak (leads : List Lead) : Option Leak :=
  let unassignedLeads :=
    leads.filter (fun l => !(jsTruthyS l.assignedTo) && !(l.status == "unqualified"))
  if unassignedLeads.length > 0 then
    some
      { id := "unassigned_leads_batch"
      , type := "UNASSIGNED_LEAD"
      , severity := if unassignedLeads.length > 10 then "HIGH" else "MEDIUM"
      , title := "Unassigned Leads"
      , description := toString unassignedLeads.length ++ " leads have no assigned rep"
      , recommendedAction :=
          "Enable round-robin assignment. Every minute unassigned = lower conversion"
      , impactedCount := unassignedLeads.length
      , estimatedRevenue := (unassignedLeads.length : Int) * 3000
      , relatedIds := unassignedLeads.map (fun l => l.id) }
  else none

/-- Leak rule 8 (dead pipeline, one aggregate leak when at least three open
deals sit in the same stage for over 14 days; `daysInStage > 14` is
`Δ > 14 * dayMs`). -/
def deadPipelineLeak (openOpps : List Opportunity) (now : Int) : Option Leak :=
  let stuckOpps := openOpps.filter (fun o => now - o.updatedAt > 14 * dayMs)
  if stuckOpps.length ≥ 3 then
    let stuckValue := stuckOpps.foldl (fun acc o => acc + o.value) 0
    some
      { id := "dead_pipeline_batch"
      , type := "DEAD_PIPELINE"
      , severity := if stuckValue > 100000 then "HIGH" else "MEDIUM"
      , title := "Stuck Pipeline"
      , description :=
          toString stuckOpps.length ++ " deals worth $" ++ toString stuckValue
            ++ " haven't moved stages in 14+ days"
      , recommendedAction :=
          "Implement stage-based SLAs. Deals stuck > 2 weeks need manager intervention"
      , impactedCount := stuckOpps.length
      , estimatedRevenue := stuckValue
      , relatedIds := stuckOpps.map (fun o => o.id) }
  else none

/-- Leak rule 9 (lost without reason, one aggregate leak). -/
def lostNoReasonLeak (opportunities : List Opportunity) : Option Leak :=
  let lostNoReason :=
    opportunities.filter (fun o =>
      o.status == "lost"
        && (match o.lostReason with
            | none => true
            | some r => r == "" || r == "unknown"))
  if lostNoReason.length > 0 then
    some
      { id := "lost_no_reason_batch"
      , type := "LOST_WITHOUT_REASON"
      , severity := "MEDIUM"
      , title := "Lost Deals Missing Reason"
      , description :=
          toString lostNoReason.length
            ++ " lost deals have no recorded loss reason. Can't fix what you don't measure"
      , recommendedAction :=
          "Require loss reason before deal can be marked lost. Review patterns monthly"
      , impactedCount := lostNoReason.length
      , estimatedRevenue := 0
      , relatedIds := lostNoReason.map (fun o => o.id) }
  else none

/-- The filter of leak rule 10: a high-value open deal with no activity in
over 7 days (falling back to its creation date when it has no activities). -/
def isHighValueAtRisk (activities : List Activity) (now : Int) (opp : Opportunity) :
    Bool :=
  if opp.value < THRESHOLDS.HIGH_VALUE_DEAL then false
  else
    let cacts := contactActs activities opp.contactId
    let delta :=
      if cacts.length > 0 then now - maxActivityTime cacts
      else now - opp.createdAt
    delta > 7 * dayMs

/-- The leak emitted by rule 10 for each qualifying deal. -/
def highValueRiskLeak (opp : Opportunity) : Leak :=
  { id := "high_value_risk_" ++ opp.id
  , type := "HIGH_VALUE_AT_RISK"
  , severity :=
      if opp.value ≥ THRESHOLDS.CRITICAL_VALUE_DEAL then "CRITICAL" else "HIGH"
  , title := "High-Value Deal At Risk"
  , description :=
      "$" ++ toString opp.value ++ " deal \"" ++ opp.name
        ++ "\" showing signs of going cold"
  , recommendedAction :=
      "Manager should personally review. Consider executive outreach or special offer"
  , impactedCount := 1
  , estimatedRevenue := opp.value
  , relatedIds := [opp.id] }

/-- `severityOrder = { CRITICAL: 0, HIGH: 1, MEDIUM: 2, LOW: 3 }`.  The
detector only ever emits the four listed severities; the catch-all branch is
for totality only. -/
def severityRank (severity : String) : Int :=
  if severity == "CRITICAL" then 0
  else if severity == "HIGH" then 1
  else if severity == "MEDIUM" then 2
  else 3

/-- Comparator of the final leak sort: by severity rank ascending, then by
estimated revenue descending. -/
def leakLt (a b : Leak) : Bool :=
  decide (severityRank a.severity < severityRank b.severity)
    || (decide (severityRank a.severity = severityRank b.severity)
        && decide (b.estimatedRevenue < a.estimatedRevenue))

/-- Per-type slice of the leak summary: `(type, count, revenue)`. -/
def byTypeSummary (leaks : List Leak) : List (String × Nat × Int) :=
  LEAK_TYPE_VALUES.foldl
    (fun acc t =>
      let typeLeaks := leaks.filter (fun l => l.type == t)
      if typeLeaks.length > 0 then
        acc ++ [(t, typeLeaks.length, typeLeaks.foldl (fun s l => s + l.estimatedRevenue) 0)]
      else acc) []

/-- Summary block of `detectLeaks`. -/
structure LeakSummary where
  totalLeaks : Nat
  criticalCount : Nat
  highCount : Nat
  mediumCount : Nat
  lowCount : Nat
  totalEstimatedRevenue : Int
  byType : List (String × Nat × Int)
deriving Repr, DecidableEq

/-- Result shape of `detectLeaks` (AI disabled: `aiInsights` stays absent;
`generatedAt` carries the `now` timestamp the source renders with
`toISOString()`). -/
structure LeakResult where
  leaks : List Leak
  summary : LeakSummary
  aiInsights : Option String
  generatedAt : Int
deriving Repr, DecidableEq

/-- `detectLeaks({opportunities, activities, leads, reps, now, includeAI: false})`:
runs the ten independent rules in source order, sorts the collected leaks by
severity then revenue, and computes the summary. -/
def detectLeaks (opportunities : List Opportunity) (activities : List Activity)
    (leads : List Lead) (reps : List SalesRep) (now : Int) : LeakResult :=
  let openOpps := opportunities.filter (fun o => o.status == "open")
  let newLeads := leads.filter (fun l => l.status == "new" && !(jsTruthyDate l.firstContactedAt))
  let collected :=
    openOpps.filterMap (staleOppLeak activities now)
      ++ newLeads.filterMap (untouchedLeadLeak now)
      ++ leads.filterMap slowResponseLeak
      ++ (abandonedDealsLeak opportunities now).toList
      ++ openOpps.filterMap (missingFollowUpLeak activities now)
      ++ reps.filterMap (inactiveRepLeak openOpps activities now)
      ++ (unassignedLeadsLeak leads).toList
      ++ (deadPipelineLeak openOpps now).toList
      ++ (lostNoReasonLeak opportunities).toList
      ++ (openOpps.filter (isHighValueAtRisk activities now)).map highValueRiskLeak
  let leaks := sortJS leakLt collected
  { leaks := leaks
  , summary :=
      { totalLeaks := leaks.length
      , criticalCount := (leaks.filter (fun l => l.severity == "CRITICAL")).length
      , highCount := (leaks.filter (fun l => l.severity == "HIGH")).length
      , mediumCount := (leaks.filter (fun l => l.severity == "MEDIUM")).length
      , lowCount := (leaks.filter (fun l => l.severity == "LOW")).length
      , totalEstimatedRevenue := leaks.foldl (fun acc l => acc + l.estimatedRevenue) 0
      , byType := byTypeSummary leaks }
  , aiInsights := none
  , generatedAt := now }

/-!
## Rep KPIs (`calculateRepKPIs` in `src/unnamed/part_005`)
-/

/-- A rep KPI record.  The source's `winRate` is `Math.round(rate * 10) / 10`
(one decimal place); it is modelled exactly as `winRateTenths`, the integer
`Math.round(rate * 10)`, so `winRate = winRateTenths / 10`. -/
structure RepKPI where
  repId : String
  repName : String
  totalOpportunities : Nat
  openOpportunities : Nat
  wonOpportunities : Nat
  lostOpportunities : Nat
  winRateTenths : Int
  totalRevenue : Int
  avgDealSize : Int
  avgDaysToClose : Int
  activitiesThisWeek : Nat
  activitiesLastWeek : Nat
  activityTrend : Int
  responseTime : Int
  staleDeals : Nat
deriving Repr, DecidableEq, Inhabited

/-- Loop body of `calculateRepKPIs` for one rep.
`winRate * 10 = (won/closed) * 100 * 10`, so
`winRateTenths = Math.round(won * 1000 / closed)` when any deal closed, else 0;
`activityTrend = Math.round(((thisWeek - lastWeek)/lastWeek) * 100)` when
`lastWeek > 0`, else 0. -/
def repKPI (opportunities : List Opportunity) (activities : List Activity)
    (now : Int) (rep : SalesRep) : RepKPI :=
  let repOpps := opportunities.filter (fun o => o.assignedTo == some rep.id)
  let repActivities := activities.filter (fun a => a.performedBy == rep.id)
  let openOppsR := repOpps.filter (fun o => o.status == "open")
  let wonOpps := repOpps.filter (fun o => o.status == "won")
  let lostOpps := repOpps.filter (fun o => o.status == "lost")
  let closedCount := wonOpps.length + lostOpps.length
  let totalRevenue := wonOpps.foldl (fun acc o => acc + o.value) 0
  let weekAgo := now - 7 * dayMs
  let twoWeeksAgo := now - 14 * dayMs
  let activitiesThisWeek :=
    (repActivities.filter (fun a => a.createdAt > weekAgo)).length
  let activitiesLastWeek :=
    (repActivities.filter (fun a => a.createdAt > twoWeeksAgo && a.createdAt ≤ weekAgo)).length
  { repId := rep.id
  , repName := rep.name
  , totalOpportunities := repOpps.length
  , openOpportunities := openOppsR.length
  , wonOpportunities := wonOpps.length
  , lostOpportunities := lostOpps.length
  , winRateTenths :=
      if closedCount > 0 then jsRoundDiv ((wonOpps.length : Int) * 1000) (closedCount : Int)
      else 0
  , totalRevenue := totalRevenue
  , avgDealSize :=
      if wonOpps.length > 0 then jsRoundDiv totalRevenue (wonOpps.length : Int) else 0
  , avgDaysToClose := 0
  , activitiesThisWeek := activitiesThisWeek
  , activitiesLastWeek := activitiesLastWeek
  , activityTrend :=
      if activitiesLastWeek > 0 then
        jsRoundDiv (((activitiesThisWeek : Int) - (activitiesLastWeek : Int)) * 100)
          (activitiesLastWeek : Int)
      else 0
  , responseTime := 0
  , staleDeals := (openOppsR.filter (fun o => now - o.updatedAt > 30 * dayMs)).length }

/-- Comparator of `calculateRepKPIs`'s final sort:
`(a, b) => b.totalRevenue - a.totalRevenue`. -/
def kpiLt (a b : RepKPI) : Bool := decide (b.totalRevenue < a.totalRevenue)

/-- `calculateRepKPIs({opportunities, activities, reps, now})`: one KPI record
per rep, sorted by total revenue descending. -/
def calculateRepKPIs (opportunities : List Opportunity) (activities : List Activity)
    (reps : List SalesRep) (now : Int) : List RepKPI :=
  sortJS kpiLt (reps.map (repKPI opportunities activities now))

/-!
## Action Recommendation Engine (`src/src/ai/actionRecommendations.js`)
-/

/-- An action record. -/
structure ActionRec where
  id : String
  type : String
  priority : Int
  urgency : String
  title : String
  description : String
  estimatedRevenue : Int
  timeToExecute : String
  relatedId : String
deriving Repr, DecidableEq, Inhabited

/-- Reading the `tier` property of a lead-score record.  The object `scoreLead`
returns has no `tier` property (see `scoreLeadRecordKeys`), so in JS the access
`l.tier` evaluates to `undefined`, modelled as `none`. -/
def ScoreRecord.tier (_ : ScoreRecord) : Option String := none

/-- Reading `lead.recommendation?.message` on a lead-score record: the record
has no `recommendation` property, so the optional chain evaluates to
`undefined` (`none`) and callers fall back to their default text. -/
def ScoreRecord.recommendationMessage (_ : ScoreRecord) : Option String := none

/-- `getLeadName(leadId, leads)`: display name of the lead with a given id. -/
def getLeadName (leadId : String) (leads : List Lead) : String :=
  match leads.find? (fun l => l.id == leadId) with
  | none => "Lead #" ++ leadId
  | some lead =>
    let trimmed :=
      String.mk
        ((((lead.firstName ++ " " ++ lead.lastName).data.dropWhile (fun c => c == ' ')).reverse.dropWhile
            (fun c => c == ' ')).reverse)
    jsOr (jsOr trimmed (lead.email.getD "")) ("Lead #" ++ leadId)

/-- Comparator of `generateActions`'s sort: `(a, b) => b.priority - a.priority`. -/
def actionLt (a b : ActionRec) : Bool := decide (b.priority < a.priority)

/-- Section 1 of `generateActions`: hot-lead call actions. -/
def hotLeadActions (leadScores : List ScoreRecord) (leads : List Lead) : List ActionRec :=
  ((leadScores.filter (fun l => l.tier == some "HOT")).take 3).map (fun lead =>
    { id := "call_hot_" ++ lead.leadId
    , type := "CALL_HOT_LEAD"
    , priority := 100
    , urgency := "IMMEDIATE"
    , title := "Call hot lead: " ++ getLeadName lead.leadId leads
    , description :=
        "Score " ++ toString lead.score ++ "/100. "
          ++ (lead.recommendationMessage.getD "High conversion probability.")
    , estimatedRevenue := 5000
    , timeToExecute := "5 min"
    , relatedId := lead.leadId })

/-- Section 2 of `generateActions`: rescue actions for deals with IMMEDIATE
urgency. -/
def rescueDealActions (dealPriorities : List PriorityRecord) : List ActionRec :=
  ((dealPriorities.filter (fun d => d.urgency == "IMMEDIATE")).take 3).map (fun deal =>
    { id := "rescue_" ++ deal.dealId
    , type := "RESCUE_DEAL"
    , priority := 95
    , urgency := "IMMEDIATE"
    , title := "Rescue deal: " ++ deal.dealName
    , description :=
        "$" ++ toString deal.value ++ " at risk. "
          ++ jsOr deal.recommendation.message "Going cold."
    , estimatedRevenue := deal.value
    , timeToExecute := "15 min"
    , relatedId := deal.dealId })

/-- Section 3 of `generateActions`: close actions for high-probability deals
recommended CLOSE. -/
def closeDealActions (dealPriorities : List PriorityRecord) : List ActionRec :=
  ((dealPriorities.filter (fun d =>
      d.scores.probability ≥ 70 && d.recommendation.action == "CLOSE")).take 3).map (fun deal =>
    { id := "close_" ++ deal.dealId
    , type := "CLOSE_DEAL"
    , priority := 90
    , urgency := "TODAY"
    , title := "Close deal: " ++ deal.dealName
    , description :=
        "High probability (" ++ toString deal.scores.probability
          ++ "%). Ask for the business."
    , estimatedRevenue := deal.value
    , timeToExecute := "30 min"
    , relatedId := deal.dealId })

/-- Section 4 of `generateActions`: fix actions for critical leaks. -/
def fixLeakActions (leaks : List Leak) : List ActionRec :=
  ((leaks.filter (fun l => l.severity == "CRITICAL")).take 2).map (fun leak =>
    { id := "fix_" ++ leak.id
    , type := "FIX_LEAK"
    , priority := 85
    , urgency := "TODAY"
    , title := leak.title
    , description := leak.description
    , estimatedRevenue := leak.estimatedRevenue
    , timeToExecute := "1 hour"
    , relatedId := leak.id })

/-- Section 5 of `generateActions`: follow-up actions for mid-decay deals. -/
def followUpActions (dealPriorities : List PriorityRecord) : List ActionRec :=
  ((dealPriorities.filter (fun d => d.scores.decay ≥ 30 && d.scores.decay < 70)).take 5).map
    (fun deal =>
      { id := "followup_" ++ deal.dealId
      , type := "FOLLOW_UP"
      , priority := 70
      , urgency := "TODAY"
      , title := "Follow up: " ++ deal.dealName
      , description := "$" ++ toString deal.value ++ " - needs touch to maintain momentum"
      , estimatedRevenue := deal.expectedValue
      , timeToExecute := "10 min"
      , relatedId := deal.dealId })

/-- Section 6 of `generateActions`: warm-lead work actions. -/
def warmLeadActions (leadScores : List ScoreRecord) (leads : List Lead) : List ActionRec :=
  ((leadScores.filter (fun l => l.tier == some "WARM")).take 3).map (fun lead =>
    { id := "work_warm_" ++ lead.leadId
    , type := "WORK_LEAD"
    , priority := 50
    , urgency := "THIS_WEEK"
    , title := "Work warm lead: " ++ getLeadName lead.leadId leads
    , description := "Score " ++ toString lead.score ++ "/100. Start outreach sequence."
    , estimatedRevenue := 3000
    , timeToExecute := "10 min"
    , relatedId := lead.leadId })

/-- `calculateTotalTime(actions)`: parses the free-text durations into a
minutes total and renders it as `"Xh Ym"` or `"N min"`. -/
def calculateTotalTime (actions : List ActionRec) : String :=
  let minutes :=
    actions.foldl
      (fun sum a =>
        let time := jsOr a.timeToExecute "10 min"
        let num := jsParseInt time
        if jsIncludes time "hour" then sum + num * 60 else sum + num) 0
  if minutes ≥ 60 then
    toString (minutes / 60) ++ "h " ++ toString (minutes % 60) ++ "m"
  else toString minutes ++ " min"

/-- Summary block of `generateActions`. -/
structure ActionSummary where
  totalActions : Nat
  immediateCount : Nat
  todayCount : Nat
  totalPotentialRevenue : Int
  estimatedTimeToComplete : String
deriving Repr, DecidableEq

/-- The urgency-bucketed views of `generateActions`. -/
structure ActionsByUrgency where
  immediate : List ActionRec
  today : List ActionRec
  thisWeek : List ActionRec
  scheduled : List ActionRec
deriving Repr, DecidableEq

/-- Result shape of `generateActions`. -/
structure ActionsResult where
  actions : List ActionRec
  nextBestAction : Option ActionRec
  summary : ActionSummary
  byUrgency : ActionsByUrgency
  generatedAt : Int
deriving Repr, DecidableEq

/-- `generateActions({leads, deals, activities, reps, leadScores,
dealPriorities, leaks}, now)`: merges the six action sections in source order
and sorts by priority descending.  The `deals`, `activities` and `reps` inputs
are accepted but never read by the source's body. -/
def generateActions (leads : List Lead) (leadScores : List ScoreRecord)
    (dealPriorities : List PriorityRecord) (leaks : List Leak) (now : Int) :
    ActionsResult :=
  let collected :=
    hotLeadActions leadScores leads
      ++ rescueDealActions dealPriorities
      ++ closeDealActions dealPriorities
      ++ fixLeakActions leaks
      ++ followUpActions dealPriorities
      ++ warmLeadActions leadScores leads
  let actions := sortJS actionLt collected
  let immediateActions := actions.filter (fun a => a.urgency == "IMMEDIATE")
  let todayActions := actions.filter (fun a => a.urgency == "TODAY")
  { actions := actions
  , nextBestAction := actions.head?
  , summary :=
      { totalActions := actions.length
      , immediateCount := immediateActions.length
      , todayCount := todayActions.length
      , totalPotentialRevenue := actions.foldl (fun acc a => acc + a.estimatedRevenue) 0
      , estimatedTimeToComplete := calculateTotalTime actions }
  , byUrgency :=
      { immediate := immediateActions
      , today := todayActions
      , thisWeek := actions.filter (fun a => a.urgency == "THIS_WEEK")
      , scheduled := actions.filter (fun a => a.urgency == "SCHEDULED") }
  , generatedAt := now }

/-!
## Insight Orchestrator health score (`calculateHealthScore` in the insight
engine of `src/src/ai/leadScoring.js`'s module family)
-/

/-- A synthesized insight (`synthesizeInsights` emits `{type, message}`
objects). -/
structure Insight where
  type : String
  message : String
deriving Repr, DecidableEq

/-- `calculateHealthScore(insights)`: start at 100, deduct 25 per CRITICAL,
10 per WARNING and 5 per CAPACITY insight, floor at 0. -/
def calculateHealthScore (insights : List Insight) : Int :=
  let score :=
    insights.foldl
      (fun s i =>
        if i.type == "CRITICAL" then s - 25
        else if i.type == "WARNING" then s - 10
        else if i.type == "CAPACITY" then s - 5
        else s) 100
  max score 0

/-!
## Concrete fixtures

Inputs used by the scenario claims and the witnesses.  `nowFix` is
`2025-01-01T12:00:00Z` in epoch milliseconds (the clock the repository's own
leak-detector tests pin). -/

/-- A fixed deterministic clock: `2025-01-01T12:00:00Z`. -/
def nowFix : Int := 1735732800000

/-- One open $50,000 opportunity created (and last updated) 60 days before
`nowFix`, with no activities anywhere. -/
def oppBig : Opportunity :=
  { id := "opp1", name := "Big Deal", contactId := "contact1", value := 50000
  , status := "open", stage := "negotiation"
  , createdAt := nowFix - 60 * dayMs, updatedAt := nowFix - 60 * dayMs }

/-- The rep of the KPI scenario. -/
def repOne : SalesRep := { id := "rep_1", name := "Test Rep", active := true }

/-- A second rep, with nothing assigned to them. -/
def repTwo : SalesRep := { id := "rep_2", name := "Idle Rep", active := true }

/-- The KPI scenario portfolio: two won deals ($10,000 and $20,000), one lost
($5,000), one open ($15,000), all assigned to `rep_1`. -/
def oppsKPI : List Opportunity :=
  [ { id := "opp_1", name := "A", contactId := "c1", value := 10000, status := "won"
    , stage := "closed", assignedTo := some "rep_1", createdAt := nowFix, updatedAt := nowFix }
  , { id := "opp_2", name := "B", contactId := "c2", value := 20000, status := "won"
    , stage := "closed", assignedTo := some "rep_1", createdAt := nowFix, updatedAt := nowFix }
  , { id := "opp_3", name := "C", contactId := "c3", value := 5000, status := "lost"
    , stage := "closed", assignedTo := some "rep_1", createdAt := nowFix, updatedAt := nowFix }
  , { id := "opp_4", name := "D", contactId := "c4", value := 15000, status := "open"
    , stage := "proposal", assignedTo := some "rep_1", createdAt := nowFix, updatedAt := nowFix } ]

/-- Two demo leads for the lead-scoring witnesses. -/
def leadsDemo : List Lead :=
  [ { id := "lead_1", firstName := "John", lastName := "Doe", status := "new"
    , leadSource := some "referral", createdAt := nowFix - 2 * dayMs
    , email := some "john@x.com", phone := some "+15550100" }
  , { id := "lead_2", firstName := "Jane", lastName := "Doe", status := "new"
    , leadSource := some "purchased list", createdAt := nowFix - 45 * dayMs } ]

/-- One demo activity attached to `lead_1`. -/
def actsDemo : List Activity :=
  [ { id := "act_1", type := "meeting", contactId := "lead_1"
    , outcome := some "completed", performedBy := "rep_1", createdAt := nowFix - 1 * dayMs } ]

/-- A critical leak used to feed `generateActions` a non-empty work list. -/
def leakCritical : Leak :=
  { id := "stale_opp_opp1", type := "STALE_OPPORTUNITY", severity := "CRITICAL"
  , title := "Stale Opportunity", description := "demo", recommendedAction := "demo"
  , impactedCount := 1, estimatedRevenue := 50000, relatedIds := ["opp1"] }

/-!
## Theorems

General properties of the stable sort model, then bound lemmas for the scoring
engines, then the claim theorems.
-/

/-- Membership through `insertOrd`. -/
theorem mem_insertOrd {α : Type} (lt : α → α → Bool) (x : α) (l : List α) (a : α) :
    a ∈ insertOrd lt x l ↔ a = x ∨ a ∈ l := by
  induction l with
  | nil => simp [insertOrd]
  | cons y ys ih =>
    simp only [insertOrd]
    split
    · simp [List.mem_cons]
    · simp only [List.mem_cons, ih]
      tauto

/-- `insertOrd` grows the list by one. -/
theorem length_insertOrd {α : Type} (lt : α → α → Bool) (x : α) (l : List α) :
    (insertOrd lt x l).length = l.length + 1 := by
  induction l with
  | nil => rfl
  | cons y ys ih =>
    simp only [insertOrd]
    split <;> simp [ih]

/-- Membership through the fold underlying `sortJS`. -/
theorem sortJS_go_mem {α : Type} (lt : α → α → Bool) (l acc : List α) (a : α) :
    a ∈ l.foldl (fun acc x => insertOrd lt x acc) acc ↔ a ∈ acc ∨ a ∈ l := by
  induction l generalizing acc with
  | nil => simp
  | cons y ys ih =>
    simp only [List.foldl_cons, ih, mem_insertOrd, List.mem_cons]
    tauto

/-- `sortJS` permutes membership. -/
theorem mem_sortJS {α : Type} (lt : α → α → Bool) (l : List α) (a : α) :
    a ∈ sortJS lt l ↔ a ∈ l := by
  simp [sortJS, sortJS_go_mem]

/-- Length through the fold underlying `sortJS`. -/
theorem sortJS_go_length {α : Type} (lt : α → α → Bool) (l acc : List α) :
    (l.foldl (fun acc x => insertOrd lt x acc) acc).length = acc.length + l.length := by
  induction l generalizing acc with
  | nil => simp
  | cons y ys ih =>
    simp only [List.foldl_cons, ih, length_insertOrd, List.length_cons]
    omega

/-- `sortJS` preserves length. -/
theorem length_sortJS {α : Type} (lt : α → α → Bool) (l : List α) :
    (sortJS lt l).length = l.length := by
  simp [sortJS, sortJS_go_length]

/-- `insertOrd` preserves sortedness with respect to the non-strict relation
`fun a b => lt b a = false`, given that `lt` is asymmetric and its complement
is transitive (both hold for every comparator in this development). -/
theorem pairwise_insertOrd {α : Type} (lt : α → α → Bool)
    (hasym : ∀ a b, lt a b = true → lt b a = false)
    (hneg : ∀ a b c, lt b a = false → lt c b = false → lt c a = false)
    (x : α) (l : List α) (h : l.Pairwise (fun a b => lt b a = false)) :
    (insertOrd lt x l).Pairwise (fun a b => lt b a = false) := by
  induction l with
  | nil => simp [insertOrd]
  | cons y ys ih =>
    rw [List.pairwise_cons] at h
    obtain ⟨hy, hys⟩ := h
    simp only [insertOrd]
    split
    case isTrue hxy =>
      rw [List.pairwise_cons]
      refine ⟨?_, List.pairwise_cons.mpr ⟨hy, hys⟩⟩
      intro z hz
      rcases List.mem_cons.mp hz with rfl | hz
      · exact hasym _ _ hxy
      · exact hneg x y z (hasym _ _ hxy) (hy z hz)
    case isFalse hxy =>
      rw [List.pairwise_cons]
      refine ⟨?_, ih hys⟩
      intro z hz
      rcases (mem_insertOrd lt x ys z).mp hz with rfl | hz
      · simpa using hxy
      · exact hy z hz

/-- Sortedness of the fold underlying `sortJS`. -/
theorem pairwise_sortJS_go {α : Type} (lt : α → α → Bool)
    (hasym : ∀ a b, lt a b = true → lt b a = false)
    (hneg : ∀ a b c, lt b a = false → lt c b = false → lt c a = false)
    (l acc : List α) (hacc : acc.Pairwise (fun a b => lt b a = false)) :
    (l.foldl (fun acc x => insertOrd lt x acc) acc).Pairwise
      (fun a b => lt b a = false) := by
  induction l generalizing acc with
  | nil => simpa
  | cons y ys ih => exact ih _ (pairwise_insertOrd lt hasym hneg y acc hacc)

/-- `sortJS lt` sorts: consecutive-pair order `lt b a = false` holds of every
in-order pair of the output. -/
theorem pairwise_sortJS {α : Type} (lt : α → α → Bool)
    (hasym : ∀ a b, lt a b = true → lt b a = false)
    (hneg : ∀ a b c, lt b a = false → lt c b = false → lt c a = false)
    (l : List α) :
    (sortJS lt l).Pairwise (fun a b => lt b a = false) :=
  pairwise_sortJS_go lt hasym hneg l [] (by simp)

/-- Every source-quality weight lies between 20 (`purchased_list`) and 95
(`referral`). -/
theorem sourceWeightFor_bounds (k : String) :
    20 ≤ sourceWeightFor k ∧ sourceWeightFor k ≤ 95 := by
  unfold sourceWeightFor
  repeat' split <;> omega

/-- Source points of a lead lie in `[5, 24]`. -/
theorem sourcePointsOf_bounds (lead : Lead) :
    5 ≤ sourcePointsOf lead ∧ sourcePointsOf lead ≤ 24 := by
  obtain ⟨h1, h2⟩ := sourceWeightFor_bounds (normalizeSource lead.leadSource)
  unfold sourcePointsOf jsRoundDiv
  omega

/-- Each engagement-loop step can only add points. -/
theorem engagementStep_fst_le (acc : Int × List String) (a : Activity) :
    acc.1 ≤ (engagementStep acc a).1 := by
  simp only [engagementStep]
  split_ifs <;> simp [ENGAGEMENT_WEIGHTS]

/-- The engagement loop never drops below its starting total. -/
theorem engagementFold_go (l : List Activity) (init : Int × List String) :
    init.1 ≤ (l.foldl engagementStep init).1 := by
  induction l generalizing init with
  | nil => simp
  | cons a as ih => exact le_trans (engagementStep_fst_le init a) (ih _)

/-- Accumulated engagement points are non-negative. -/
theorem engagementFold_fst_nonneg (activities : List Activity) :
    0 ≤ (engagementFold activities).1 := by
  simpa using engagementFold_go activities (0, [])

/-- Recency points lie in `[2, 25]`. -/
theorem recencyPointsOf_bounds (lead : Lead) (activities : List Activity) (now : Int) :
    2 ≤ recencyPointsOf lead activities now ∧ recencyPointsOf lead activities now ≤ 25 := by
  simp only [recencyPointsOf]
  split_ifs <;> omega

/-- Fit points are non-negative before the cap. -/
theorem fitPointsOf_nonneg (lead : Lead) : 0 ≤ fitPointsOf lead := by
  unfold fitPointsOf
  split_ifs <;> omega

/-- The total score of `scoreLead` lies in `[0, 100]` (it is in fact at most
`24 + 30 + 25 + 20 = 99`). -/
theorem scoreLead_score_bounds (lead : Lead) (activities : List Activity) (now : Int) :
    0 ≤ (scoreLead lead activities now).score ∧ (scoreLead lead activities now).score ≤ 100 := by
  have hs := sourcePointsOf_bounds lead
  have he : (0 : Int) ≤ (engagementFold activities).1 := engagementFold_fst_nonneg activities
  have hr := recencyPointsOf_bounds lead activities now
  have hf : (0 : Int) ≤ fitPointsOf lead := fitPointsOf_nonneg lead
  simp only [scoreLead]
  omega

/-- Claim C2: in the leak list returned by `detectLeaks`, every in-order pair
of leaks either strictly increases in severity rank (higher severity —
CRITICAL before HIGH before MEDIUM before LOW — comes first regardless of
revenue), or has equal severity with the earlier leak's estimated revenue at
least the later one's. -/
theorem c2_leak_sort_order (opportunities : List Opportunity)
    (activities : List Activity) (leads : List Lead) (reps : List SalesRep) (now : Int) :
    (detectLeaks opportunities activities leads reps now).leaks.Pairwise
      (fun a b =>
        severityRank a.severity < severityRank b.severity
          ∨ (severityRank a.severity = severityRank b.severity
              ∧ b.estimatedRevenue ≤ a.estimatedRevenue)) := by
  have hasym : ∀ a b : Leak, leakLt a b = true → leakLt b a = false := by
    intro a b h
    simp only [leakLt, Bool.or_eq_true, Bool.and_eq_true, decide_eq_true_eq,
      Bool.or_eq_false_iff, Bool.and_eq_false_iff, decide_eq_false_iff_not] at h ⊢
    omega
  have hneg : ∀ a b c : Leak,
      leakLt b a = false → leakLt c b = false → leakLt c a = false := by
    intro a b c h1 h2
    simp only [leakLt, Bool.or_eq_false_iff, Bool.and_eq_false_iff,
      decide_eq_false_iff_not] at h1 h2 ⊢
    omega
  have key : ∀ l : List Leak,
      (sortJS leakLt l).Pairwise
        (fun a b =>
          severityRank a.severity < severityRank b.severity
            ∨ (severityRank a.severity = severityRank b.severity
                ∧ b.estimatedRevenue ≤ a.estimatedRevenue)) := by
    intro l
    refine (pairwise_sortJS leakLt hasym hneg l).imp ?_
    intro a b h
    simp only [leakLt, Bool.or_eq_false_iff, Bool.and_eq_false_iff,
      decide_eq_false_iff_not] at h
    omega
  simp only [detectLeaks]
  exact key _

/-- Claim C3 counterexample: the object literal returned by `scoreLead` (and
hence every record `scoreAllLeads` emits) has no `rank` property at all — its
keys are exactly `leadId, score, grade, breakdown, signals, priority` — so the
records cannot carry ranks forming a permutation of 1..N. -/
theorem c3_counterexample_no_rank : "rank" ∉ scoreLeadRecordKeys := by decide

/-- Claim C3 as amended: `scoreAllLeads` produces exactly one score record per
input lead, every score lies in `[0, 100]`, and the output is sorted by score
descending (every in-order pair is non-increasing in score); no rank field is
assigned. -/
theorem c3_scoreAllLeads_shape (leads : List Lead) (activities : List Activity) (now : Int) :
    (scoreAllLeads leads activities now).leads.length = leads.length
      ∧ (∀ r ∈ (scoreAllLeads leads activities now).leads, 0 ≤ r.score ∧ r.score ≤ 100)
      ∧ (scoreAllLeads leads activities now).leads.Pairwise
          (fun a b => b.score ≤ a.score) := by
  have hasym : ∀ a b : ScoreRecord, scoreRecLt a b = true → scoreRecLt b a = false := by
    intro a b h
    simp only [scoreRecLt, decide_eq_true_eq, decide_eq_false_iff_not] at h ⊢
    omega
  have hneg : ∀ a b c : ScoreRecord,
      scoreRecLt b a = false → scoreRecLt c b = false → scoreRecLt c a = false := by
    intro a b c h1 h2
    simp only [scoreRecLt, decide_eq_false_iff_not] at h1 h2 ⊢
    omega
  refine ⟨?_, ?_, ?_⟩
  · simp only [scoreAllLeads]
    rw [length_sortJS, List.length_map]
  · intro r hr
    simp only [scoreAllLeads] at hr
    rw [mem_sortJS] at hr
    obtain ⟨l, hl, rfl⟩ := List.mem_map.mp hr
    exact scoreLead_score_bounds l _ now
  · simp only [scoreAllLeads]
    refine (pairwise_sortJS scoreRecLt hasym hneg _).imp ?_
    intro a b h
    simp only [scoreRecLt, decide_eq_false_iff_not] at h
    omega

/-- Witness for the amended claim C3, at the two demo leads and one demo
activity. -/
theorem c3_scoreAllLeads_shape_witness :
    (scoreAllLeads leadsDemo actsDemo nowFix).leads.length = leadsDemo.length
      ∧ (∀ r ∈ (scoreAllLeads leadsDemo actsDemo nowFix).leads, 0 ≤ r.score ∧ r.score ≤ 100)
      ∧ (scoreAllLeads leadsDemo actsDemo nowFix).leads.Pairwise
          (fun a b => b.score ≤ a.score) :=
  c3_scoreAllLeads_shape leadsDemo actsDemo nowFix

/-- The deduction fold of `calculateHealthScore` never exceeds its starting
value. -/
theorem healthFold_le (l : List Insight) (s : Int) :
    (l.foldl
      (fun s i =>
        if i.type == "CRITICAL" then s - 25
        else if i.type == "WARNING" then s - 10
        else if i.type == "CAPACITY" then s - 5
        else s) s) ≤ s := by
  induction l generalizing s with
  | nil => simp
  | cons i is ih =>
    rw [List.foldl_cons]
    exact le_trans (ih _) (by split_ifs <;> omega)

/-- Claim C7: the orchestrator's health score lies in `[0, 100]` for every
list of synthesized insights — deductions (25 per CRITICAL, 10 per WARNING,
5 per CAPACITY) only lower it from 100, and the `Math.max(score, 0)` floor
keeps it non-negative even when they exceed 100. -/
theorem c7_health_score_clamped (insights : List Insight) :
    0 ≤ calculateHealthScore insights ∧ calculateHealthScore insights ≤ 100 := by
  have h := healthFold_le insights 100
  simp only [calculateHealthScore]
  omega

/-- Claim C1: on the snapshot with exactly the one open $50,000 opportunity
created 60 days before the fixed clock and no activities (AI disabled),
`detectLeaks` emits exactly one leak of type `STALE_OPPORTUNITY`, and that
leak has severity CRITICAL (its value reaches the critical-value threshold,
which is 50000) and estimated revenue 50000. -/
theorem c1_stale_scenario :
    (((detectLeaks [oppBig] [] [] [] nowFix).leaks.filter
        (fun l => l.type == "STALE_OPPORTUNITY")).map
      (fun l => (l.severity, l.estimatedRevenue))) = [("CRITICAL", 50000)]
      ∧ THRESHOLDS.CRITICAL_VALUE_DEAL = 50000
      ∧ oppBig.value = 50000 := by
  decide

/-- Claim C6: `detectLeaks` does not deduplicate revenue across rule types.
On the C1 snapshot the same $50,000 deal triggers both the STALE_OPPORTUNITY
rule and the HIGH_VALUE_AT_RISK rule (both leaks point at `opp1` and each
carries its full value), so `summary.totalEstimatedRevenue` is 100000 — more
than the deal's own value. -/
theorem c6_double_counted_revenue :
    (((detectLeaks [oppBig] [] [] [] nowFix).leaks.filter
        (fun l => l.type == "STALE_OPPORTUNITY")).map
      (fun l => (l.estimatedRevenue, l.relatedIds))) = [(50000, ["opp1"])]
      ∧ (((detectLeaks [oppBig] [] [] [] nowFix).leaks.filter
            (fun l => l.type == "HIGH_VALUE_AT_RISK")).map
          (fun l => (l.estimatedRevenue, l.relatedIds))) = [(50000, ["opp1"])]
      ∧ (detectLeaks [oppBig] [] [] [] nowFix).summary.totalEstimatedRevenue = 100000
      ∧ oppBig.value < (detectLeaks [oppBig] [] [] [] nowFix).summary.totalEstimatedRevenue := by
  decide

/-- Claim C5: `detectLeaks` is deterministic — it is a pure function of the
input collections and the supplied `now` clock (with AI disabled the embedded
source reads no system clock and uses no randomness), so equal inputs give
equal results: the same leaks, with the same ids, fields and order. -/
theorem c5_detectLeaks_deterministic (o₁ o₂ : List Opportunity)
    (a₁ a₂ : List Activity) (l₁ l₂ : List Lead) (r₁ r₂ : List SalesRep)
    (n₁ n₂ : Int) (ho : o₁ = o₂) (ha : a₁ = a₂) (hl : l₁ = l₂) (hr : r₁ = r₂)
    (hn : n₁ = n₂) :
    detectLeaks o₁ a₁ l₁ r₁ n₁ = detectLeaks o₂ a₂ l₂ r₂ n₂ := by
  subst ho ha hl hr hn
  rfl

/-- Witness for claim C5: the two runs on the C1 snapshot coincide. -/
theorem c5_detectLeaks_deterministic_witness :
    detectLeaks [oppBig] [] [] [] nowFix = detectLeaks [oppBig] [] [] [] nowFix :=
  c5_detectLeaks_deterministic [oppBig] [oppBig] [] [] [] [] [] [] nowFix nowFix
    rfl rfl rfl rfl rfl

/-- Claim C8: on the rep with two won deals ($10,000 and $20,000), one lost
($5,000) and one open ($15,000), `calculateRepKPIs` reports 2 won, 1 lost,
total revenue 30000 (won values only) and a win rate of 66.7 percent —
`Math.round((2/3)·100·10) = 667` tenths, i.e. 66.7 after the source's final
division by ten. -/
theorem c8_rep_kpi_scenario :
    ((calculateRepKPIs oppsKPI [] [repOne] nowFix).map
      (fun k => (k.wonOpportunities, k.lostOpportunities, k.totalRevenue, k.winRateTenths)))
      = [(2, 1, 30000, 667)] := by
  decide

/-- Claim C9: for a rep with no assigned opportunities and no performed
activities, `calculateRepKPIs` still returns a KPI record for them, with
win rate 0, total revenue 0 and average deal size 0 — every empty-set
ratio/mean is the guarded zero branch, not an error value. -/
theorem c9_empty_rep_kpis (opportunities : List Opportunity)
    (activities : List Activity) (reps : List SalesRep) (now : Int) (rep : SalesRep)
    (hrep : rep ∈ reps)
    (hO : ∀ o ∈ opportunities, o.assignedTo ≠ some rep.id)
    (hA : ∀ a ∈ activities, a.performedBy ≠ rep.id) :
    ∃ k ∈ calculateRepKPIs opportunities activities reps now,
      k.repId = rep.id ∧ k.winRateTenths = 0 ∧ k.totalRevenue = 0 ∧ k.avgDealSize = 0 := by
  refine ⟨repKPI opportunities activities now rep, ?_, ?_⟩
  · exact (mem_sortJS kpiLt _ _).mpr (List.mem_map_of_mem _ hrep)
  · have hfO : opportunities.filter (fun o => o.assignedTo == some rep.id) = [] := by
      rw [List.filter_eq_nil_iff]
      intro o ho
      simpa using hO o ho
    have hfA : activities.filter (fun a => a.performedBy == rep.id) = [] := by
      rw [List.filter_eq_nil_iff]
      intro a ha
      simpa using hA a ha
    simp [repKPI, hfO, hfA]

/-- Witness for claim C9: a rep with nothing assigned in an otherwise empty
snapshot. -/
theorem c9_empty_rep_kpis_witness :
    ∃ k ∈ calculateRepKPIs [] [] [repTwo] nowFix,
      k.repId = repTwo.id ∧ k.winRateTenths = 0 ∧ k.totalRevenue = 0 ∧ k.avgDealSize = 0 :=
  c9_empty_rep_kpis [] [] [repTwo] nowFix repTwo (by decide) (by simp) (by simp)

/-- The sub-scores of a prioritized deal, by unfolding `prioritizeDeal`. -/
theorem prioritizeDeal_scores (deal : Opportunity) (activities : List Activity) (now : Int) :
    (prioritizeDeal deal activities now).scores
      = { value := scoreValue deal.value
        , probability := scoreProbability deal activities
        , velocity := scoreVelocity deal activities now
        , decay := scoreDecay deal activities now
        , effort := scoreEffort deal activities } := rfl

/-- The expected value of a prioritized deal, by unfolding `prioritizeDeal`. -/
theorem prioritizeDeal_expectedValue (deal : Opportunity) (activities : List Activity)
    (now : Int) :
    (prioritizeDeal deal activities now).expectedValue
      = jsRoundDiv (deal.value * scoreProbability deal activities) 100 := rfl

/-- `scoreProbability` never exceeds 100 (the source caps it with
`Math.min(score, 100)`). -/
theorem scoreProbability_le_100 (deal : Opportunity) (activities : List Activity) :
    scoreProbability deal activities ≤ 100 := by
  simp only [scoreProbability]
  exact min_le_right _ _

/-- `Math.round(v·p/100) ≤ v` whenever `0 ≤ v` and `p ≤ 100`. -/
theorem jsRoundDiv_mul_le (v p : Int) (hv : 0 ≤ v) (hp : p ≤ 100) :
    jsRoundDiv (v * p) 100 ≤ v := by
  have h : v * p ≤ v * 100 := mul_le_mul_of_nonneg_left hp hv
  simp only [jsRoundDiv]
  omega

/-- Rank stamping changes only the `rank` field: every ranked record comes
from a record of the unranked list with the same deal id, value, expected
value and sub-scores. -/
theorem mem_addRanks (i : Int) (l : List PriorityRecord) (r : PriorityRecord)
    (h : r ∈ addRanks i l) :
    ∃ p ∈ l, r.dealId = p.dealId ∧ r.value = p.value
      ∧ r.expectedValue = p.expectedValue ∧ r.scores = p.scores := by
  induction l generalizing i with
  | nil => simp [addRanks] at h
  | cons p ps ih =>
    simp only [addRanks, List.mem_cons] at h
    rcases h with rfl | h
    · exact ⟨p, List.mem_cons_self p ps, rfl, rfl, rfl, rfl⟩
    · obtain ⟨q, hq, hprops⟩ := ih _ h
      exact ⟨q, List.mem_cons_of_mem _ hq, hprops⟩

/-- Claim C4: every record in the ranked output of `prioritizeDeals` comes
from an input deal with status `open` (closed deals are never scored), carries
that deal's id and value, has probability at most 100 percent, and — under the
data-model invariant that deal values are non-negative — its expected value
never exceeds its value. -/
theorem c4_prioritizeDeals_open_and_bounded (deals : List Opportunity)
    (activities : List Activity) (now : Int)
    (hval : ∀ d ∈ deals, 0 ≤ d.value) :
    ∀ r ∈ (prioritizeDeals deals activities now).deals,
      (∃ d ∈ deals, d.status = "open" ∧ r.dealId = d.id ∧ r.value = d.value)
        ∧ r.scores.probability ≤ 100
        ∧ r.expectedValue ≤ r.value := by
  intro r hr
  simp only [prioritizeDeals] at hr
  obtain ⟨p, hp, hid, hv, hev, hsc⟩ := mem_addRanks _ _ _ hr
  rw [mem_sortJS] at hp
  obtain ⟨d, hd, rfl⟩ := List.mem_map.mp hp
  obtain ⟨hdmem, hdopen⟩ := List.mem_filter.mp hd
  have hopen : d.status = "open" := by simpa using hdopen
  have hd0 : 0 ≤ d.value := hval d hdmem
  refine ⟨⟨d, hdmem, hopen, ?_, ?_⟩, ?_, ?_⟩
  · rw [hid]; rfl
  · rw [hv]; rfl
  · rw [hsc, prioritizeDeal_scores]
    exact scoreProbability_le_100 d _
  · rw [hev, hv, prioritizeDeal_expectedValue]
    exact jsRoundDiv_mul_le d.value _ hd0 (scoreProbability_le_100 d _)

/-- Witness for claim C4, at the one-deal fixture. -/
theorem c4_prioritizeDeals_witness :
    (∃ d ∈ [oppBig], d.status = "open"
        ∧ ((prioritizeDeals [oppBig] [] nowFix).deals.headI).dealId = d.id
        ∧ ((prioritizeDeals [oppBig] [] nowFix).deals.headI).value = d.value)
      ∧ ((prioritizeDeals [oppBig] [] nowFix).deals.headI).scores.probability ≤ 100
      ∧ ((prioritizeDeals [oppBig] [] nowFix).deals.headI).expectedValue
          ≤ ((prioritizeDeals [oppBig] [] nowFix).deals.headI).value :=
  c4_prioritizeDeals_open_and_bounded [oppBig] [] nowFix (by decide)
    ((prioritizeDeals [oppBig] [] nowFix).deals.headI) (by decide)

/-- `scoreLead` records carry no `tier` property, so both tier filters of
`generateActions` select nothing from them. -/
theorem tier_filter_nil (ls : List ScoreRecord) (t : String) :
    ls.filter (fun l => l.tier == some t) = [] := by
  rw [List.filter_eq_nil_iff]
  intro r _
  simp [ScoreRecord.tier]

/-- Claim C10: fed the records `scoreAllLeads` produces (which carry `grade`
and `priority` but no `tier` field), `generateActions` emits no
`CALL_HOT_LEAD` and no `WORK_LEAD` actions — the HOT and WARM tier filters
are always empty. -/
theorem c10_no_hot_or_warm_actions (leads scoredLeads : List Lead)
    (scoredActs : List Activity) (scoreNow : Int)
    (dealPriorities : List PriorityRecord) (leaks : List Leak) (now : Int) :
    ∀ a ∈ (generateActions leads ((scoreAllLeads scoredLeads scoredActs scoreNow).leads)
        dealPriorities leaks now).actions,
      a.type ≠ "CALL_HOT_LEAD" ∧ a.type ≠ "WORK_LEAD" := by
  intro a ha
  simp only [generateActions] at ha
  rw [mem_sortJS] at ha
  simp only [hotLeadActions, warmLeadActions, tier_filter_nil, List.take_nil,
    List.map_nil, List.append_nil, List.nil_append, List.mem_append] at ha
  rcases ha with ((h | h) | h) | h
  · obtain ⟨d, _, rfl⟩ := List.mem_map.mp h
    exact ⟨by simp, by simp⟩
  · obtain ⟨d, _, rfl⟩ := List.mem_map.mp h
    exact ⟨by simp, by simp⟩
  · obtain ⟨leak, _, rfl⟩ := List.mem_map.mp h
    exact ⟨by simp, by simp⟩
  · obtain ⟨d, _, rfl⟩ := List.mem_map.mp h
    exact ⟨by simp, by simp⟩

/-- Witness for claim C10: with one critical leak in play, the action queue is
non-empty and its head is still neither a hot-lead call nor a warm-lead work
item (it is a FIX_LEAK action). -/
theorem c10_no_hot_or_warm_actions_witness :
    ((generateActions leadsDemo ((scoreAllLeads leadsDemo actsDemo nowFix).leads)
        [] [leakCritical] nowFix).actions.headI).type ≠ "CALL_HOT_LEAD"
      ∧ ((generateActions leadsDemo ((scoreAllLeads leadsDemo actsDemo nowFix).leads)
          [] [leakCritical] nowFix).actions.headI).type ≠ "WORK_LEAD" :=
  c10_no_hot_or_warm_actions leadsDemo leadsDemo actsDemo nowFix [] [leakCritical] nowFix
    ((generateActions leadsDemo ((scoreAllLeads leadsDemo actsDemo nowFix).leads)
        [] [leakCritical] nowFix).actions.headI) (by decide)
